import Mathlib

/-!
Verification development for `example.py` of the autoencoder-compression
repository.  The script builds a random batch `dummy = torch.randn(2, 3, 150, 225)`,
constructs the external model with `Autoencoder()`, runs `out = model(dummy)`,
and prints the two shapes.  We embed a run of the script as a function of the
external module's behaviour, recording the trace of operations, the externally
visible effects, the exit code and any uncaught exception.
-/

/-- A tensor shape: the list of axis sizes, outermost axis first. -/
abbrev Shape := List Nat

/-- The probability distribution from which a tensor's entries were drawn,
tracked abstractly: the script never inspects entry values, only shapes. -/
inductive SampleDist where
  | normal
  | uniform
  | unknown
  deriving DecidableEq, Repr

/-- A numeric tensor, abstracted to its shape and the distribution of its
entries. -/
structure Tensor where
  shape : Shape
  dist : SampleDist
  deriving DecidableEq, Repr

/-- The call `torch.randn(sizes)`: a fresh tensor of the requested shape whose
entries are sampled from the standard normal distribution (mean 0, variance 1),
which is the documented semantics of `randn`. -/
def torch.randn (shape : Shape) : Tensor :=
  ⟨shape, SampleDist.normal⟩

/-- The script's input batch, `dummy = torch.randn(2, 3, 150, 225)`
(example.py line 12). -/
def dummy : Tensor := torch.randn [2, 3, 150, 225]

/-- A Python exception, abstracted to its cause. -/
inductive PyError where
  | importFailure
  | shapeMismatch
  | runtimeFailure (code : Nat)
  deriving DecidableEq, Repr

/-- The external model object; its internals live outside this repository. -/
structure Autoencoder where
  uid : Nat
  deriving DecidableEq, Repr

/-- Behaviour of the external autoencoder module during one run: what the
zero-argument constructor returns and what the forward computation returns on
a given model and input, each possibly raising an exception. -/
structure ModelImpl where
  construct : Except PyError Autoencoder
  forward : Autoencoder → Tensor → Except PyError Tensor

/-- One operation performed by the script, in trace order. -/
inductive Event where
  | randnCall (shape : Shape) (result : Tensor)
  | constructCall (args : List String) (ok : Bool)
  | forwardCall (input : Tensor) (ok : Bool)
  | printLine (line : String)
  deriving DecidableEq, Repr

/-- The kind of an event, forgetting its payload. -/
inductive EventKind where
  | gen
  | construct
  | forward
  | printed
  deriving DecidableEq, Repr

/-- Map an event to its kind. -/
def Event.kind : Event → EventKind
  | .randnCall _ _ => .gen
  | .constructCall _ _ => .construct
  | .forwardCall _ _ => .forward
  | .printLine _ => .printed

/-- An externally visible effect the process could perform. -/
inductive Effect where
  | stdout (line : String)
  | fileRead (path : String)
  | fileWrite (path : String)
  | envRead (name : String)
  | network (host : String)
  deriving DecidableEq, Repr

/-- Whether an effect is a write to standard output. -/
def Effect.isStdout : Effect → Bool
  | .stdout _ => true
  | _ => false

/-- The observable result of one run of the script. -/
structure RunResult where
  events : List Event
  effects : List Effect
  exitCode : Nat
  uncaught : Option PyError
  deriving Repr

/-- The lines the run printed, in order. -/
def RunResult.printed (r : RunResult) : List String :=
  r.events.filterMap fun e =>
    match e with
    | .printLine s => some s
    | _ => none

/-- Rendering of a shape the way `print` shows `t.shape`. -/
def sizeRepr (s : Shape) : String := "torch.Size(" ++ toString s ++ ")"

/-- The line printed by example.py line 17 for the input tensor. -/
def printedInputLine (t : Tensor) : String := "input  shape : " ++ sizeRepr t.shape

/-- The line printed by example.py line 18 for the output tensor. -/
def printedOutputLine (t : Tensor) : String := "output shape: " ++ sizeRepr t.shape

/-- The body of one run of example.py, given the outcome `c` of evaluating
`Autoencoder()` with no arguments (line 14) and the outcome `f m` of evaluating
`model(dummy)` (line 15).  Line 12 builds `dummy` first; lines 17 and 18 print
the input shape and then the output shape.  The script installs no handler, so
an exception raised by the external module ends the run at once with a nonzero
exit code and nothing printed. -/
def runOutcome (c : Except PyError Autoencoder)
    (f : Autoencoder → Except PyError Tensor) : RunResult :=
  match c with
  | Except.error e =>
      ⟨[Event.randnCall [2, 3, 150, 225] dummy, Event.constructCall [] false],
        [], 1, some e⟩
  | Except.ok m =>
      match f m with
      | Except.error e =>
          ⟨[Event.randnCall [2, 3, 150, 225] dummy, Event.constructCall [] true,
              Event.forwardCall dummy false],
            [], 1, some e⟩
      | Except.ok out =>
          ⟨[Event.randnCall [2, 3, 150, 225] dummy, Event.constructCall [] true,
              Event.forwardCall dummy true,
              Event.printLine (printedInputLine dummy),
              Event.printLine (printedOutputLine out)],
            [Effect.stdout (printedInputLine dummy),
              Effect.stdout (printedOutputLine out)],
            0, none⟩

/-- One run of example.py, parameterised by the behaviour `impl` of the
external autoencoder module and by the process argument vector `argv`, which
the script never reads. -/
def runScript (impl : ModelImpl) (argv : List String) : RunResult :=
  runOutcome impl.construct (fun m => impl.forward m dummy)

/-- Modelled from the spec: the repository's `autoencoder.py` is imported by
example.py but is not present under src/.  The spec describes its only relied
upon capability as "accept a 4-axis numeric tensor of shape (N, 3, H, W) and
return a tensor of the same shape"; on any other shape the behaviour is
unspecified and modelled as raising. -/
def Autoencoder.forward (t : Tensor) : Except PyError Tensor :=
  match t.shape with
  | [_, 3, _, _] => Except.ok ⟨t.shape, SampleDist.unknown⟩
  | _ => Except.error PyError.shapeMismatch

/-- Modelled from the spec: `Autoencoder()` succeeds with a default-configured
model instance whose forward computation is `Autoencoder.forward`. -/
def specImpl : ModelImpl := ⟨Except.ok ⟨0⟩, fun _ t => Autoencoder.forward t⟩

/-- An external behaviour whose model construction raises, as when
`autoencoder.py` cannot be imported. -/
def failImpl : ModelImpl :=
  ⟨Except.error PyError.importFailure, fun _ t => Autoencoder.forward t⟩

/-- An external behaviour whose forward computation returns a tensor whose
shape differs from the input's shape. -/
def badShapeImpl : ModelImpl :=
  ⟨Except.ok ⟨0⟩, fun _ _ => Except.ok ⟨[1], SampleDist.unknown⟩⟩

/-- An external behaviour whose forward computation raises. -/
def fwdFailImpl : ModelImpl :=
  ⟨Except.ok ⟨0⟩, fun _ _ => Except.error (PyError.runtimeFailure 1)⟩

/-- Case analysis for `runOutcome`: construction fails, the forward
computation fails, or both succeed and the two lines are printed. -/
theorem runOutcome_cases (c : Except PyError Autoencoder)
    (f : Autoencoder → Except PyError Tensor) :
    (∃ e, c = Except.error e ∧
      runOutcome c f =
        ⟨[Event.randnCall [2, 3, 150, 225] dummy, Event.constructCall [] false],
          [], 1, some e⟩) ∨
    (∃ m e, c = Except.ok m ∧ f m = Except.error e ∧
      runOutcome c f =
        ⟨[Event.randnCall [2, 3, 150, 225] dummy, Event.constructCall [] true,
            Event.forwardCall dummy false],
          [], 1, some e⟩) ∨
    (∃ m out, c = Except.ok m ∧ f m = Except.ok out ∧
      runOutcome c f =
        ⟨[Event.randnCall [2, 3, 150, 225] dummy, Event.constructCall [] true,
            Event.forwardCall dummy true,
            Event.printLine (printedInputLine dummy),
            Event.printLine (printedOutputLine out)],
          [Effect.stdout (printedInputLine dummy),
            Effect.stdout (printedOutputLine out)],
          0, none⟩) := by
  cases c with
  | error e => exact Or.inl ⟨e, rfl, rfl⟩
  | ok m =>
    rcases hf : f m with e | out
    · refine Or.inr (Or.inl ⟨m, e, rfl, hf, ?_⟩)
      simp only [runOutcome, hf]
    · refine Or.inr (Or.inr ⟨m, out, rfl, hf, ?_⟩)
      simp only [runOutcome, hf]

/-- Every run of the script takes exactly one of the three forms of
`runOutcome_cases`. -/
theorem runScript_cases (impl : ModelImpl) (argv : List String) :
    (∃ e, impl.construct = Except.error e ∧
      runScript impl argv =
        ⟨[Event.randnCall [2, 3, 150, 225] dummy, Event.constructCall [] false],
          [], 1, some e⟩) ∨
    (∃ m e, impl.construct = Except.ok m ∧ impl.forward m dummy = Except.error e ∧
      runScript impl argv =
        ⟨[Event.randnCall [2, 3, 150, 225] dummy, Event.constructCall [] true,
            Event.forwardCall dummy false],
          [], 1, some e⟩) ∨
    (∃ m out, impl.construct = Except.ok m ∧ impl.forward m dummy = Except.ok out ∧
      runScript impl argv =
        ⟨[Event.randnCall [2, 3, 150, 225] dummy, Event.constructCall [] true,
            Event.forwardCall dummy true,
            Event.printLine (printedInputLine dummy),
            Event.printLine (printedOutputLine out)],
          [Effect.stdout (printedInputLine dummy),
            Effect.stdout (printedOutputLine out)],
          0, none⟩) :=
  runOutcome_cases impl.construct (fun m => impl.forward m dummy)

/-- C1: for every input tensor of shape (N, 3, H, W), the modelled Autoencoder
forward computation returns a tensor of the same shape; in the script's run
with this model the two printed lines show the same shape. -/
theorem C1_shape_preserved (n h w : Nat) (t : Tensor)
    (ht : t.shape = [n, 3, h, w]) :
    (∃ u, Autoencoder.forward t = Except.ok u ∧ u.shape = t.shape) ∧
    (∃ s, (runScript specImpl []).printed =
      ["input  shape : " ++ s, "output shape: " ++ s]) := by
  constructor
  · refine ⟨⟨t.shape, SampleDist.unknown⟩, ?_, rfl⟩
    unfold Autoencoder.forward
    rw [ht]
  · exact ⟨sizeRepr [2, 3, 150, 225], rfl⟩

/-- C1 witness: the theorem applied at the script's concrete input `dummy`. -/
theorem C1_shape_preserved_witness :
    dummy.shape = [2, 3, 150, 225] ∧
    ((∃ u, Autoencoder.forward dummy = Except.ok u ∧ u.shape = dummy.shape) ∧
     (∃ s, (runScript specImpl []).printed =
       ["input  shape : " ++ s, "output shape: " ++ s])) :=
  ⟨rfl, C1_shape_preserved 2 150 225 dummy rfl⟩

/-- C2 counterexample: the script's input batch is not drawn from a uniform
distribution; `torch.randn` samples the standard normal distribution. -/
theorem C2_not_uniform : ¬ dummy.dist = SampleDist.uniform := by
  decide

/-- C2 amended: in every run, every tensor produced by the random generation
step has its entries drawn from the standard normal distribution. -/
theorem C2_randn_normal (impl : ModelImpl) (argv : List String)
    (sh : Shape) (t : Tensor)
    (hmem : Event.randnCall sh t ∈ (runScript impl argv).events) :
    t.dist = SampleDist.normal := by
  rcases runScript_cases impl argv with ⟨e, hc, hr⟩ | ⟨m, e, hc, hf, hr⟩ |
      ⟨m, out, hc, hf, hr⟩ <;>
    (rw [hr] at hmem
     simp at hmem
     rcases hmem with ⟨h1, h2⟩
     subst h2
     rfl)

/-- C2 amended witness: the theorem applied at the run whose generation event
is concrete. -/
theorem C2_randn_normal_witness :
    (Event.randnCall [2, 3, 150, 225] dummy ∈ (runScript specImpl []).events) ∧
    dummy.dist = SampleDist.normal :=
  ⟨by decide, C2_randn_normal specImpl [] [2, 3, 150, 225] dummy (by decide)⟩

/-- C3: every run begins by generating a random batch of shape
[2, 3, 150, 225], a 4-axis tensor with dimensions 2, 3, 150, 225 in order. -/
theorem C3_input_shape (impl : ModelImpl) (argv : List String) :
    (runScript impl argv).events.head? =
      some (Event.randnCall [2, 3, 150, 225] dummy) ∧
    dummy.shape = [2, 3, 150, 225] ∧ dummy.shape.length = 4 := by
  rcases runScript_cases impl argv with ⟨e, hc, hr⟩ | ⟨m, e, hc, hf, hr⟩ |
      ⟨m, out, hc, hf, hr⟩ <;>
    rw [hr] <;> exact ⟨rfl, rfl, rfl⟩

/-- C4: when construction and the forward computation both return, the run
exits with status 0 and merely prints the two shape lines, even when the
output shape differs from the input shape; no programmatic check rejects the
mismatch. -/
theorem C4_no_programmatic_check (impl : ModelImpl) (argv : List String)
    (m : Autoencoder) (out : Tensor)
    (hc : impl.construct = Except.ok m)
    (hf : impl.forward m dummy = Except.ok out)
    (hne : out.shape ≠ dummy.shape) :
    (runScript impl argv).exitCode = 0 ∧ (runScript impl argv).uncaught = none ∧
    (runScript impl argv).printed =
      [printedInputLine dummy, printedOutputLine out] := by
  rcases runScript_cases impl argv with ⟨e, hc2, hr⟩ | ⟨m2, e, hc2, hf2, hr⟩ |
      ⟨m2, out2, hc2, hf2, hr⟩
  · rw [hc] at hc2
    exact Except.noConfusion hc2
  · rw [hc] at hc2
    injection hc2 with hm
    subst hm
    rw [hf] at hf2
    exact Except.noConfusion hf2
  · rw [hc] at hc2
    injection hc2 with hm
    subst hm
    rw [hf] at hf2
    injection hf2 with ho
    subst ho
    rw [hr]
    exact ⟨rfl, rfl, rfl⟩

/-- C4 witness: a forward computation returning shape [1] still exits 0. -/
theorem C4_no_programmatic_check_witness :
    badShapeImpl.construct = Except.ok ⟨0⟩ ∧
    badShapeImpl.forward ⟨0⟩ dummy = Except.ok ⟨[1], SampleDist.unknown⟩ ∧
    Tensor.shape ⟨[1], SampleDist.unknown⟩ ≠ dummy.shape ∧
    ((runScript badShapeImpl []).exitCode = 0 ∧
      (runScript badShapeImpl []).uncaught = none ∧
      (runScript badShapeImpl []).printed =
        [printedInputLine dummy, printedOutputLine ⟨[1], SampleDist.unknown⟩]) :=
  ⟨rfl, rfl, by decide,
   C4_no_programmatic_check badShapeImpl [] ⟨0⟩ ⟨[1], SampleDist.unknown⟩
     rfl rfl (by decide)⟩

/-- C5: the script handles no errors: an exception from construction or from
the forward computation is left uncaught and the run exits nonzero. -/
theorem C5_errors_propagate (impl : ModelImpl) (argv : List String) :
    (∀ e, impl.construct = Except.error e →
      (runScript impl argv).uncaught = some e ∧
      (runScript impl argv).exitCode ≠ 0) ∧
    (∀ m e, impl.construct = Except.ok m →
      impl.forward m dummy = Except.error e →
      (runScript impl argv).uncaught = some e ∧
      (runScript impl argv).exitCode ≠ 0) := by
  constructor
  · intro e he
    rcases runScript_cases impl argv with ⟨e2, hc2, hr⟩ | ⟨m2, e2, hc2, hf2, hr⟩ |
        ⟨m2, out2, hc2, hf2, hr⟩
    · rw [he] at hc2
      injection hc2 with h
      subst h
      rw [hr]
      exact ⟨rfl, Nat.one_ne_zero⟩
    · rw [he] at hc2
      exact Except.noConfusion hc2
    · rw [he] at hc2
      exact Except.noConfusion hc2
  · intro m e hm he
    rcases runScript_cases impl argv with ⟨e2, hc2, hr⟩ | ⟨m2, e2, hc2, hf2, hr⟩ |
        ⟨m2, out2, hc2, hf2, hr⟩
    · rw [hm] at hc2
      exact Except.noConfusion hc2
    · rw [hm] at hc2
      injection hc2 with h
      subst h
      rw [he] at hf2
      injection hf2 with h2
      subst h2
      rw [hr]
      exact ⟨rfl, Nat.one_ne_zero⟩
    · rw [hm] at hc2
      injection hc2 with h
      subst h
      rw [he] at hf2
      exact Except.noConfusion hf2

/-- C5 witness: a failing construction and a failing forward computation each
leave their exception uncaught with a nonzero exit code. -/
theorem C5_errors_propagate_witness :
    ((runScript failImpl []).uncaught = some PyError.importFailure ∧
      (runScript failImpl []).exitCode ≠ 0) ∧
    ((runScript fwdFailImpl []).uncaught = some (PyError.runtimeFailure 1) ∧
      (runScript fwdFailImpl []).exitCode ≠ 0) :=
  ⟨(C5_errors_propagate failImpl []).1 PyError.importFailure rfl,
   (C5_errors_propagate fwdFailImpl []).2 ⟨0⟩ (PyError.runtimeFailure 1) rfl rfl⟩

/-- C6 counterexample: in the run whose model construction raises, the script
does not execute all four operations; only the generation and the failed
construction occur, so the claim's universal operation sequence fails. -/
theorem C6_counterexample :
    ¬ (runScript failImpl []).events.map Event.kind =
      [EventKind.gen, EventKind.construct, EventKind.forward,
       EventKind.printed, EventKind.printed] := by
  decide

/-- C6 amended: in every run in which construction and the forward computation
both return, the script performs exactly these operations in this order:
generate the random batch, construct the model, run the forward computation on
the batch, print the input shape line, print the output shape line; in a
failing run the later operations do not occur. -/
theorem C6_operation_order (impl : ModelImpl) (argv : List String)
    (m : Autoencoder) (out : Tensor)
    (hc : impl.construct = Except.ok m)
    (hf : impl.forward m dummy = Except.ok out) :
    (runScript impl argv).events =
      [Event.randnCall [2, 3, 150, 225] dummy, Event.constructCall [] true,
       Event.forwardCall dummy true, Event.printLine (printedInputLine dummy),
       Event.printLine (printedOutputLine out)] ∧
    (runScript impl argv).events.map Event.kind =
      [EventKind.gen, EventKind.construct, EventKind.forward,
       EventKind.printed, EventKind.printed] := by
  rcases runScript_cases impl argv with ⟨e2, hc2, hr⟩ | ⟨m2, e2, hc2, hf2, hr⟩ |
      ⟨m2, out2, hc2, hf2, hr⟩
  · rw [hc] at hc2
    exact Except.noConfusion hc2
  · rw [hc] at hc2
    injection hc2 with hm
    subst hm
    rw [hf] at hf2
    exact Except.noConfusion hf2
  · rw [hc] at hc2
    injection hc2 with hm
    subst hm
    rw [hf] at hf2
    injection hf2 with ho
    subst ho
    rw [hr]
    exact ⟨rfl, rfl⟩

/-- C6 amended witness: the full trace of the run with the spec-modelled
autoencoder. -/
theorem C6_operation_order_witness :
    specImpl.construct = Except.ok ⟨0⟩ ∧
    specImpl.forward ⟨0⟩ dummy =
      Except.ok ⟨[2, 3, 150, 225], SampleDist.unknown⟩ ∧
    ((runScript specImpl []).events =
      [Event.randnCall [2, 3, 150, 225] dummy, Event.constructCall [] true,
       Event.forwardCall dummy true, Event.printLine (printedInputLine dummy),
       Event.printLine
         (printedOutputLine ⟨[2, 3, 150, 225], SampleDist.unknown⟩)] ∧
     (runScript specImpl []).events.map Event.kind =
      [EventKind.gen, EventKind.construct, EventKind.forward,
       EventKind.printed, EventKind.printed]) :=
  ⟨rfl, rfl,
   C6_operation_order specImpl [] ⟨0⟩ ⟨[2, 3, 150, 225], SampleDist.unknown⟩
     rfl rfl⟩

/-- C7: in every run, the model constructor is invoked with no arguments. -/
theorem C7_default_construction (impl : ModelImpl) (argv : List String) :
    ((runScript impl argv).events.all fun e =>
      match e with
      | Event.constructCall args _ => args.isEmpty
      | _ => true) = true := by
  rcases runScript_cases impl argv with ⟨e, hc, hr⟩ | ⟨m, e, hc, hf, hr⟩ |
      ⟨m, out, hc, hf, hr⟩ <;> rw [hr] <;> rfl

/-- C8: the script ignores its argument vector and its own effects are writes
to standard output only: no file, environment or network effect occurs. -/
theorem C8_no_external_effects (impl : ModelImpl) (argv : List String) :
    runScript impl argv = runScript impl [] ∧
    (runScript impl argv).effects.all Effect.isStdout = true := by
  refine ⟨rfl, ?_⟩
  rcases runScript_cases impl argv with ⟨e, hc, hr⟩ | ⟨m, e, hc, hf, hr⟩ |
      ⟨m, out, hc, hf, hr⟩ <;> rw [hr] <;> rfl

/-- C9: if construction or the forward computation raises, no shape line is
printed, although the input batch was already generated first. -/
theorem C9_prints_gated (impl : ModelImpl) (argv : List String)
    (hfail : (∃ e, impl.construct = Except.error e) ∨
      (∃ m e, impl.construct = Except.ok m ∧
        impl.forward m dummy = Except.error e)) :
    (runScript impl argv).printed = [] ∧
    Event.randnCall [2, 3, 150, 225] dummy ∈ (runScript impl argv).events := by
  rcases runScript_cases impl argv with ⟨e, hc, hr⟩ | ⟨m, e, hc, hf, hr⟩ |
      ⟨m, out, hc, hf, hr⟩
  · rw [hr]
    exact ⟨rfl, List.mem_cons_self _ _⟩
  · rw [hr]
    exact ⟨rfl, List.mem_cons_self _ _⟩
  · exfalso
    rcases hfail with ⟨e2, he⟩ | ⟨m2, e2, hm2, he⟩
    · rw [he] at hc
      exact Except.noConfusion hc
    · rw [hm2] at hc
      injection hc with h
      subst h
      rw [he] at hf
      exact Except.noConfusion hf

/-- C9 witness: with a failing construction, nothing is printed although the
generation event occurred. -/
theorem C9_prints_gated_witness :
    ((∃ e, failImpl.construct = Except.error e) ∨
      (∃ m e, failImpl.construct = Except.ok m ∧
        failImpl.forward m dummy = Except.error e)) ∧
    ((runScript failImpl []).printed = [] ∧
      Event.randnCall [2, 3, 150, 225] dummy ∈ (runScript failImpl []).events) :=
  ⟨Or.inl ⟨PyError.importFailure, rfl⟩,
   C9_prints_gated failImpl [] (Or.inl ⟨PyError.importFailure, rfl⟩)⟩

/-- C10: the tensor handed to the forward computation is exactly the generated
batch `dummy`, and when an input-shape line is printed it is the line for that
same tensor. -/
theorem C10_input_unmodified (impl : ModelImpl) (argv : List String) :
    ((runScript impl argv).events.all fun e =>
      match e with
      | Event.forwardCall t _ => decide (t = dummy)
      | _ => true) = true ∧
    ((runScript impl argv).printed = [] ∨
      (runScript impl argv).printed.head? = some (printedInputLine dummy)) := by
  rcases runScript_cases impl argv with ⟨e, hc, hr⟩ | ⟨m, e, hc, hf, hr⟩ |
      ⟨m, out, hc, hf, hr⟩ <;> rw [hr]
  · exact ⟨rfl, Or.inl rfl⟩
  · exact ⟨rfl, Or.inl rfl⟩
  · exact ⟨rfl, Or.inr rfl⟩
